import Mathlib

/-!
Shallow embedding of the extrinsic-submission layer of `basedai`
(`src/basedai/extrinsics/set_weights.py` and `src/basedai/extrinsics/root.py`).

External effects are passed in as explicit parameters:
  * the answer of the interactive `Confirm.ask` prompt (`confirmAnswer`),
  * the response of the chain client (`_do_set_weights`, `_do_root_register`,
    `is_computekey_registered`), with `Except.error` standing for a raised
    exception and `Except.ok` for a normal return,
  * for the deadline guard, the wall-clock duration of the spawned worker.

Each embedded function returns a record holding the Python return value
(`Except.error` in a `result` field models an exception escaping the
function; `Option Bool` with `none` models Python's implicit `None` return)
together with the observable effect trace the claims talk about: which
network submission was issued and with which arguments, whether the
confirmation prompt was shown, how many post-submission registration
queries ran, and the process-management steps of the guard.
-/

deriving instance DecidableEq for Except

/-- Modelled from the spec: `convert_weights_and_uids_for_emit` lives in
`basedai/utils/weight_utils.py`, which is not among the sources.  Per the
spec's fixed-point encoding and error taxonomy: mismatched lengths and
negative weights are `InvalidInput` (an exception, hence `Except.error`);
otherwise each weight `w` of the vector is encoded to
`round (w / max * 65535)` with `max` the largest weight, an all-zero
vector encoding as all zeros. -/
def convert_weights_and_uids_for_emit (uids : List Nat) (weights : List ℚ) :
    Except String (List Nat × List Nat) :=
  if uids.length ≠ weights.length then
    Except.error "InvalidInput: mismatched lengths"
  else if weights.any (fun w => w < 0) then
    Except.error "InvalidInput: negative weight"
  else
    let m := weights.foldl max 0
    if m ≤ 0 then
      Except.ok (uids, weights.map (fun _ => 0))
    else
      Except.ok (uids, weights.map (fun w => (round (w / m * 65535)).toNat))

/-- Modelled from the spec: `normalize_max_weight` lives in
`basedai/utils/weight_utils.py`, which is not among the sources.  Per the
spec's normalizer contract: rescale linearly so the largest weight maps to
`limit`, clip at `limit`, and return the vector unchanged when it is empty
or all weights are non-positive. -/
def normalize_max_weight (x : List ℚ) (limit : ℚ) : List ℚ :=
  let m := x.foldl max 0
  if m ≤ 0 then x
  else x.map (fun w => min (w * (limit / m)) limit)

/-- Process-management actions performed by `ttl_set_weights_extrinsic`:
spawning the worker, the `join(timeout=ttl)` call, `terminate()`, and the
final unbounded `join()`. -/
inductive GuardStep
  | spawn
  | timedJoin
  | terminate
  | join
deriving DecidableEq, Repr

/-- Observable outcome of one `ttl_set_weights_extrinsic` call: the value it
returns, the process-management steps it performed in order, and the result
the worker itself produced (`none` when the worker was killed before
finishing; a completed worker's value is recorded here even though the
parent cannot read it across the process boundary). -/
structure GuardRun where
  ret : Bool
  steps : List GuardStep
  childResult : Option Bool
deriving DecidableEq, Repr

/-- Embedding of `ttl_set_weights_extrinsic`
(`src/basedai/extrinsics/set_weights.py`, lines 32-63).  `duration` is the
wall-clock time the spawned `set_weights_extrinsic` worker would need, and
`wrapped_result` the boolean it would return; the worker finishes within the
deadline exactly when `duration ≤ ttl`, in which case `join(timeout=ttl)`
reaps it and `is_alive()` is false.  Note that the parent never reads the
worker's return value: it returns `True` on every in-time path and `False`
only on the timeout path. -/
def ttl_set_weights_extrinsic (duration ttl : Nat) (wrapped_result : Bool) :
    GuardRun :=
  if duration ≤ ttl then
    { ret := true
      steps := [GuardStep.spawn, GuardStep.timedJoin]
      childResult := some wrapped_result }
  else
    { ret := false
      steps := [GuardStep.spawn, GuardStep.timedJoin, GuardStep.terminate,
                GuardStep.join]
      childResult := none }

/-- Lifecycle of the guarded worker process, used to state reclamation. -/
inductive WorkerState
  | running
  | killed
  | reaped
deriving DecidableEq, Repr

/-- Effect of one guard step on the worker: `timedJoin` reaps the worker
exactly when it finished within the deadline (`inTime`), `terminate` kills
it, and an unbounded `join` always reaps it. -/
def stepWorker (inTime : Bool) : WorkerState → GuardStep → WorkerState
  | _, GuardStep.spawn => WorkerState.running
  | s, GuardStep.timedJoin => if inTime then WorkerState.reaped else s
  | _, GuardStep.terminate => WorkerState.killed
  | _, GuardStep.join => WorkerState.reaped

/-- Worker state after running a list of guard steps. -/
def workerAfter (inTime : Bool) (steps : List GuardStep) : WorkerState :=
  steps.foldl (stepWorker inTime) WorkerState.running

/-- Checks that whenever a `terminate` step occurs, a `join` follows it. -/
def terminateThenJoin : List GuardStep → Bool
  | [] => true
  | GuardStep.terminate :: rest => rest.contains GuardStep.join
  | _ :: rest => terminateThenJoin rest

/-- Observable outcome of one `set_weights_extrinsic` call: the Python
result (`Except.error` = an exception escaped the function), the arguments
passed to `_do_set_weights` if it was invoked (`none` = never invoked), and
whether the interactive confirmation prompt was shown. -/
structure SetWeightsRun where
  result : Except String Bool
  submitted : Option (List Nat × List Nat)
  confirmAsked : Bool
deriving DecidableEq, Repr

/-- Embedding of `set_weights_extrinsic`
(`src/basedai/extrinsics/set_weights.py`, lines 66-168).  `do_set_weights`
is the chain client's behaviour for `_do_set_weights`: `Except.error e` is a
raised exception (caught by the `try` block and turned into `False`),
`Except.ok (success, msg)` a normal return.  The call to
`convert_weights_and_uids_for_emit` happens before the prompt and outside
the `try` block, so its exception escapes the function. -/
def set_weights_extrinsic (uids : List Nat) (weights : List ℚ)
    (wait_for_inclusion wait_for_finalization prompt confirmAnswer : Bool)
    (do_set_weights : Except String (Bool × String)) : SetWeightsRun :=
  match convert_weights_and_uids_for_emit uids weights with
  | Except.error e =>
      { result := Except.error e, submitted := none, confirmAsked := false }
  | Except.ok (weight_uids, weight_vals) =>
      if prompt && !confirmAnswer then
        { result := Except.ok false, submitted := none, confirmAsked := true }
      else
        match do_set_weights with
        | Except.error _ =>
            { result := Except.ok false
              submitted := some (weight_uids, weight_vals)
              confirmAsked := prompt }
        | Except.ok (success, _error_message) =>
            if !wait_for_finalization && !wait_for_inclusion then
              { result := Except.ok true
                submitted := some (weight_uids, weight_vals)
                confirmAsked := prompt }
            else if success then
              { result := Except.ok true
                submitted := some (weight_uids, weight_vals)
                confirmAsked := prompt }
            else
              { result := Except.ok false
                submitted := some (weight_uids, weight_vals)
                confirmAsked := prompt }

/-- The `ValueError` message raised by `set_root_weights_extrinsic` when too
few weights remain after discarding non-positive entries. -/
def minWeightsMessage (required actual : Nat) : String :=
  "The minimum number of weights required to set weights is " ++
    toString required ++ ", got " ++ toString actual

/-- Observable outcome of one `set_root_weights_extrinsic` call: the Python
result (`Except.error` = an exception escaped the function), the arguments
passed to `_do_set_weights` if it was invoked, the `normalize_max_weight`
output that was computed and displayed (when reached), and whether the
confirmation prompt was shown. -/
structure RootSetWeightsRun where
  result : Except String Bool
  submitted : Option (List Nat × List Nat)
  formatted : Option (List ℚ)
  confirmAsked : Bool
deriving DecidableEq, Repr

/-- Embedding of `set_root_weights_extrinsic`
(`src/basedai/extrinsics/root.py`, lines 104-224).  `min_allowed_weights`
and `max_weight_limit` are the chain parameters queried for netuid 0;
`do_set_weights` is the chain client's behaviour for `_do_set_weights`.
The count check runs on the strictly positive entries; the `ValueError` it
raises is not caught.  Both `convert_weights_and_uids_for_emit` and
`_do_set_weights` run inside the `try` block, so their exceptions become a
`False` return.  Note that the raw `netuids`/`weights` — not the filtered
entries, nor `normalize_max_weight`'s output — are handed to the emission
conversion. -/
def set_root_weights_extrinsic (netuids : List Nat) (weights : List ℚ)
    (min_allowed_weights : Nat) (max_weight_limit : ℚ)
    (wait_for_inclusion wait_for_finalization prompt confirmAnswer : Bool)
    (do_set_weights : Except String (Bool × String)) : RootSetWeightsRun :=
  let non_zero_weights := weights.filter (fun w => 0 < w)
  if non_zero_weights.length < min_allowed_weights then
    { result := Except.error
        (minWeightsMessage min_allowed_weights non_zero_weights.length)
      submitted := none, formatted := none, confirmAsked := false }
  else
    let formatted_weights := normalize_max_weight weights max_weight_limit
    if prompt && !confirmAnswer then
      { result := Except.ok false, submitted := none
        formatted := some formatted_weights, confirmAsked := true }
    else
      match convert_weights_and_uids_for_emit netuids weights with
      | Except.error _ =>
          { result := Except.ok false, submitted := none
            formatted := some formatted_weights, confirmAsked := prompt }
      | Except.ok (weight_uids, weight_vals) =>
          match do_set_weights with
          | Except.error _ =>
              { result := Except.ok false
                submitted := some (weight_uids, weight_vals)
                formatted := some formatted_weights, confirmAsked := prompt }
          | Except.ok (success, _error_message) =>
              if !wait_for_finalization && !wait_for_inclusion then
                { result := Except.ok true
                  submitted := some (weight_uids, weight_vals)
                  formatted := some formatted_weights, confirmAsked := prompt }
              else if success then
                { result := Except.ok true
                  submitted := some (weight_uids, weight_vals)
                  formatted := some formatted_weights, confirmAsked := prompt }
              else
                { result := Except.ok false
                  submitted := some (weight_uids, weight_vals)
                  formatted := some formatted_weights, confirmAsked := prompt }

/-- Observable outcome of one `root_register_extrinsic` call: the Python
return value (`none` models the implicit `None` of falling off the function
end), whether `_do_root_register` was invoked, how many post-submission
`is_computekey_registered` queries ran, and whether the confirmation prompt
was shown. -/
structure RootRegisterRun where
  ret : Option Bool
  submitted : Bool
  postChecks : Nat
  confirmAsked : Bool
deriving DecidableEq, Repr

/-- Embedding of `root_register_extrinsic`
(`src/basedai/extrinsics/root.py`, lines 33-101).  `is_registered` is the
pre-submission `is_computekey_registered` answer for netuid 0,
`do_root_register` the `(success, err_msg)` pair returned by
`_do_root_register`, and `is_registered_after` the answer of the
post-submission registration query.  The source's branch condition
`success != True or success == False` is kept literally. -/
def root_register_extrinsic (is_registered : Bool) (prompt confirmAnswer : Bool)
    (do_root_register : Bool × String) (is_registered_after : Bool) :
    RootRegisterRun :=
  if is_registered then
    { ret := some true, submitted := false, postChecks := 0
      confirmAsked := false }
  else if prompt && !confirmAnswer then
    { ret := some false, submitted := false, postChecks := 0
      confirmAsked := true }
  else
    let success := do_root_register.1
    if success != true || success == false then
      { ret := none, submitted := true, postChecks := 0
        confirmAsked := prompt }
    else if is_registered_after then
      { ret := some true, submitted := true, postChecks := 1
        confirmAsked := prompt }
    else
      { ret := none, submitted := true, postChecks := 1
        confirmAsked := prompt }

/-- C1 fails on the code: the deadline guard does not propagate the wrapped
operation's result.  At `duration = 0 ≤ ttl = 100` the worker completes in
time with explicit failure (`false`), yet `ttl_set_weights_extrinsic`
returns `true`, not the wrapped result. -/
theorem c1_guard_propagation_counterexample :
    (0 : Nat) ≤ 100 ∧
    (ttl_set_weights_extrinsic 0 100 false).childResult = some false ∧
    (ttl_set_weights_extrinsic 0 100 false).ret = true ∧
    ¬ (ttl_set_weights_extrinsic 0 100 false).ret = false := by decide

/-- C1 (amended): whenever the wrapped operation completes before `ttl`
elapses, the guard returns `true` regardless of the wrapped call's own
result — an in-time success is thus propagated verbatim, but an in-time
explicit failure is also reported as `true`, because the worker's return
value never crosses the process boundary. -/
theorem c1_guard_in_time_returns_true (duration ttl : Nat) (r : Bool)
    (h : duration ≤ ttl) :
    (ttl_set_weights_extrinsic duration ttl r).ret = true ∧
    (ttl_set_weights_extrinsic duration ttl r).childResult = some r ∧
    (r = true → (ttl_set_weights_extrinsic duration ttl r).ret = r) := by
  unfold ttl_set_weights_extrinsic
  rw [if_pos h]
  exact ⟨rfl, rfl, fun hr => hr.symm⟩

/-- Witness for `c1_guard_in_time_returns_true` at `duration = 2`,
`ttl = 100`, wrapped result `true`. -/
theorem c1_guard_in_time_returns_true_witness :
    (ttl_set_weights_extrinsic 2 100 true).ret = true ∧
    (ttl_set_weights_extrinsic 2 100 true).childResult = some true ∧
    (true = true → (ttl_set_weights_extrinsic 2 100 true).ret = true) :=
  c1_guard_in_time_returns_true 2 100 true (by decide)

/-- C2: when `ttl` elapses before the worker completes, the guard terminates
the in-flight worker and returns `false`, the worker's outcome is recorded
as unknown (`none`), and this timed-out return value differs from the
guard's return value on every in-time completion — success or explicit
rejection alike — so a timed-out call is never reported as success and is
distinguishable from an explicit rejection. -/
theorem c2_guard_timeout_distinct (duration ttl : Nat) (r : Bool)
    (h : ttl < duration) :
    (ttl_set_weights_extrinsic duration ttl r).ret = false ∧
    GuardStep.terminate ∈ (ttl_set_weights_extrinsic duration ttl r).steps ∧
    (ttl_set_weights_extrinsic duration ttl r).childResult = none ∧
    (∀ (d2 : Nat) (r2 : Bool), d2 ≤ ttl →
      (ttl_set_weights_extrinsic d2 ttl r2).ret ≠
        (ttl_set_weights_extrinsic duration ttl r).ret) := by
  have hn : ¬ duration ≤ ttl := not_le.mpr h
  unfold ttl_set_weights_extrinsic
  rw [if_neg hn]
  refine ⟨rfl, by simp, rfl, ?_⟩
  intro d2 r2 h2
  rw [if_pos h2]
  simp

/-- Witness for `c2_guard_timeout_distinct` at `duration = 5`, `ttl = 3`. -/
theorem c2_guard_timeout_distinct_witness :
    (ttl_set_weights_extrinsic 5 3 true).ret = false ∧
    GuardStep.terminate ∈ (ttl_set_weights_extrinsic 5 3 true).steps ∧
    (ttl_set_weights_extrinsic 5 3 true).childResult = none ∧
    (∀ (d2 : Nat) (r2 : Bool), d2 ≤ 3 →
      (ttl_set_weights_extrinsic d2 3 r2).ret ≠
        (ttl_set_weights_extrinsic 5 3 true).ret) :=
  c2_guard_timeout_distinct 5 3 true (by decide)

/-- C9: on every exit path of the guard the worker ends up reaped — within
the deadline the timed join reclaims the completed worker, and on the
timeout path the worker is terminated and then joined (every `terminate`
step is followed by a `join`), so no guarded call leaks a live worker. -/
theorem c9_guard_worker_reclaimed (duration ttl : Nat) (r : Bool) :
    workerAfter (decide (duration ≤ ttl))
      (ttl_set_weights_extrinsic duration ttl r).steps = WorkerState.reaped ∧
    terminateThenJoin (ttl_set_weights_extrinsic duration ttl r).steps
      = true := by
  by_cases h : duration ≤ ttl
  · simp [ttl_set_weights_extrinsic, if_pos h, h, workerAfter, stepWorker,
      terminateThenJoin]
  · simp [ttl_set_weights_extrinsic, if_neg h, h, workerAfter, stepWorker,
      terminateThenJoin]

/-- C5: when the pre-submission registration query reports the participant
already registered, `root_register_extrinsic` returns `True` immediately,
never invokes `_do_root_register`, shows no prompt, and performs no
post-submission query — so a second call after a successful registration
issues no second network submission. -/
theorem c5_register_idempotent (prompt confirmAnswer : Bool)
    (resp : Bool × String) (after : Bool) :
    root_register_extrinsic true prompt confirmAnswer resp after =
      { ret := some true, submitted := false, postChecks := 0,
        confirmAsked := false } := rfl

/-- C4 fails on the code: when `_do_root_register` reports failure,
`root_register_extrinsic` performs no post-submission registration query at
all (the claim says exactly one runs regardless of the reported outcome)
and returns Python `None` rather than an explicit `False` — even when the
chain state would have shown the registration as present. -/
theorem c4_register_postcheck_counterexample :
    (root_register_extrinsic false false true (false, "chain error") true).postChecks
        = 0 ∧
    ¬ (root_register_extrinsic false false true (false, "chain error") true).postChecks
        = 1 ∧
    (root_register_extrinsic false false true (false, "chain error") true).ret
        = none ∧
    ¬ (root_register_extrinsic false false true (false, "chain error") true).ret
        = some false := by decide

/-- C4 (amended): for a participant that is not yet registered and whose
confirmation is not declined, the gate re-queries registration status once
only when the submission call reported success, returning `True` exactly
when that post-check shows registered and `None` otherwise; when the call
reported failure it performs no post-check and returns `None` — neither
failure path yields an explicit `False`. -/
theorem c4_register_postcheck_only_on_success (prompt confirmAnswer : Bool)
    (success : Bool) (msg : String) (after : Bool)
    (hc : (prompt && !confirmAnswer) = false) :
    (success = false →
      root_register_extrinsic false prompt confirmAnswer (success, msg) after =
        { ret := none, submitted := true, postChecks := 0,
          confirmAsked := prompt }) ∧
    (success = true →
      root_register_extrinsic false prompt confirmAnswer (success, msg) after =
        { ret := if after then some true else none, submitted := true,
          postChecks := 1, confirmAsked := prompt }) := by
  constructor
  · intro hs
    subst hs
    simp [root_register_extrinsic, hc]
  · intro hs
    subst hs
    cases after <;> simp [root_register_extrinsic, hc]

/-- Witness for `c4_register_postcheck_only_on_success` at a failed
submission with no prompt. -/
theorem c4_register_postcheck_only_on_success_witness :
    (false = false →
      root_register_extrinsic false false true (false, "boom") false =
        { ret := none, submitted := true, postChecks := 0,
          confirmAsked := false }) ∧
    (false = true →
      root_register_extrinsic false false true (false, "boom") false =
        { ret := if false then some true else none, submitted := true,
          postChecks := 1, confirmAsked := false }) :=
  c4_register_postcheck_only_on_success false true false "boom" false (by decide)

/-- If the confirmation prompt of `set_weights_extrinsic` was shown and the
answer was no, the call returns `False` without any submission. -/
lemma set_weights_declined_aborts (uids : List Nat) (weights : List ℚ)
    (wfi wff : Bool) (resp : Except String (Bool × String))
    (h : (set_weights_extrinsic uids weights wfi wff true false resp).confirmAsked
      = true) :
    set_weights_extrinsic uids weights wfi wff true false resp =
      { result := Except.ok false, submitted := none, confirmAsked := true } := by
  unfold set_weights_extrinsic at h ⊢
  cases hconv : convert_weights_and_uids_for_emit uids weights with
  | error e => rw [hconv] at h; simp at h
  | ok p => rfl

/-- If the confirmation prompt of `set_root_weights_extrinsic` was shown and
the answer was no, the call returns `False` without any submission. -/
lemma set_root_weights_declined_aborts (netuids : List Nat) (rweights : List ℚ)
    (mA : Nat) (limit : ℚ) (wfi wff : Bool)
    (resp : Except String (Bool × String))
    (h : (set_root_weights_extrinsic netuids rweights mA limit wfi wff true false
      resp).confirmAsked = true) :
    set_root_weights_extrinsic netuids rweights mA limit wfi wff true false resp =
      { result := Except.ok false, submitted := none,
        formatted := some (normalize_max_weight rweights limit),
        confirmAsked := true } := by
  unfold set_root_weights_extrinsic at h ⊢
  by_cases hm : (rweights.filter (fun w => 0 < w)).length < mA
  · rw [if_pos hm] at h; simp at h
  · rw [if_neg hm] at h ⊢; rfl

/-- If the confirmation prompt of `root_register_extrinsic` was shown and
the answer was no, the call returns `False` without any submission. -/
lemma root_register_declined_aborts (pre : Bool) (resp : Bool × String)
    (after : Bool)
    (h : (root_register_extrinsic pre true false resp after).confirmAsked
      = true) :
    root_register_extrinsic pre true false resp after =
      { ret := some false, submitted := false, postChecks := 0,
        confirmAsked := true } := by
  cases pre
  · rfl
  · simp [root_register_extrinsic] at h

/-- C8: in all three extrinsic flows, whenever the interactive confirmation
prompt is actually shown (`confirmAsked`) and the user declines, the call
aborts with a non-success result and no network submission is ever issued:
neither `_do_set_weights` nor `_do_root_register` runs after a declined
confirmation. -/
theorem c8_declined_confirmation_aborts (uids : List Nat) (weights : List ℚ)
    (wfi wff : Bool) (resp : Except String (Bool × String))
    (netuids : List Nat) (rweights : List ℚ) (mA : Nat) (limit : ℚ)
    (wfi2 wff2 : Bool) (resp2 : Except String (Bool × String))
    (pre : Bool) (resp3 : Bool × String) (after : Bool)
    (h1 : (set_weights_extrinsic uids weights wfi wff true false
      resp).confirmAsked = true)
    (h2 : (set_root_weights_extrinsic netuids rweights mA limit wfi2 wff2 true
      false resp2).confirmAsked = true)
    (h3 : (root_register_extrinsic pre true false resp3 after).confirmAsked
      = true) :
    (set_weights_extrinsic uids weights wfi wff true false resp).submitted
        = none ∧
    (set_weights_extrinsic uids weights wfi wff true false resp).result
        = Except.ok false ∧
    (set_root_weights_extrinsic netuids rweights mA limit wfi2 wff2 true false
        resp2).submitted = none ∧
    (set_root_weights_extrinsic netuids rweights mA limit wfi2 wff2 true false
        resp2).result = Except.ok false ∧
    (root_register_extrinsic pre true false resp3 after).submitted = false ∧
    (root_register_extrinsic pre true false resp3 after).ret = some false := by
  rw [set_weights_declined_aborts uids weights wfi wff resp h1,
    set_root_weights_declined_aborts netuids rweights mA limit wfi2 wff2 resp2 h2,
    root_register_declined_aborts pre resp3 after h3]
  exact ⟨rfl, rfl, rfl, rfl, rfl, rfl⟩

/-- Witness for `c8_declined_confirmation_aborts` with concrete inputs in
each of the three flows. -/
theorem c8_declined_confirmation_aborts_witness :
    (set_weights_extrinsic [1] [1] false false true false
        (Except.ok (true, ""))).submitted = none ∧
    (set_weights_extrinsic [1] [1] false false true false
        (Except.ok (true, ""))).result = Except.ok false ∧
    (set_root_weights_extrinsic [1] [1] 0 1 false false true false
        (Except.ok (true, ""))).submitted = none ∧
    (set_root_weights_extrinsic [1] [1] 0 1 false false true false
        (Except.ok (true, ""))).result = Except.ok false ∧
    (root_register_extrinsic false true false (true, "") true).submitted
        = false ∧
    (root_register_extrinsic false true false (true, "") true).ret
        = some false :=
  c8_declined_confirmation_aborts [1] [1] false false (Except.ok (true, ""))
    [1] [1] 0 1 false false (Except.ok (true, ""))
    false (true, "") true (by decide) (by decide) (by decide)

/-- C6: `set_root_weights_extrinsic` keeps only strictly positive weights
for the cardinality check (every kept entry is not ≤ 0), and when fewer
such weights remain than the chain's `minAllowedWeights` the call fails by
raising a `ValueError` naming the required and the actual counts, before
`_do_set_weights` is ever invoked. -/
theorem c6_root_insufficient_weights (netuids : List Nat) (weights : List ℚ)
    (mA : Nat) (limit : ℚ) (wfi wff prompt confirmAnswer : Bool)
    (resp : Except String (Bool × String))
    (h : (weights.filter (fun w => 0 < w)).length < mA) :
    (∀ w ∈ weights.filter (fun w => 0 < w), ¬ w ≤ 0) ∧
    (set_root_weights_extrinsic netuids weights mA limit wfi wff prompt
        confirmAnswer resp).result =
      Except.error
        (minWeightsMessage mA (weights.filter (fun w => 0 < w)).length) ∧
    (set_root_weights_extrinsic netuids weights mA limit wfi wff prompt
        confirmAnswer resp).submitted = none := by
  refine ⟨?_, ?_, ?_⟩
  · intro w hw
    have hmem := List.mem_filter.mp hw
    exact not_le.mpr (of_decide_eq_true hmem.2)
  · unfold set_root_weights_extrinsic
    rw [if_pos h]
  · unfold set_root_weights_extrinsic
    rw [if_pos h]

/-- Witness for `c6_root_insufficient_weights` at the spec's example vector
with `minAllowedWeights = 2`: one positive entry remains, so the call fails
naming required 2 and actual 1. -/
theorem c6_root_insufficient_weights_witness :
    (∀ w ∈ [(0 : ℚ), mkRat 1 2, -1].filter (fun w => 0 < w), ¬ w ≤ 0) ∧
    (set_root_weights_extrinsic [1, 2, 3] [(0 : ℚ), mkRat 1 2, -1] 2 1 false
        false false true (Except.ok (true, ""))).result =
      Except.error
        (minWeightsMessage 2
          ([(0 : ℚ), mkRat 1 2, -1].filter (fun w => 0 < w)).length) ∧
    (set_root_weights_extrinsic [1, 2, 3] [(0 : ℚ), mkRat 1 2, -1] 2 1 false
        false false true (Except.ok (true, ""))).submitted = none :=
  c6_root_insufficient_weights [1, 2, 3] [(0 : ℚ), mkRat 1 2, -1] 2 1 false
    false false true (Except.ok (true, "")) (by decide)

/-- When neither inclusion nor finalization is awaited and `_do_set_weights`
returns a pair, `set_weights_extrinsic` returns `True` whenever the
submission was reached. -/
lemma set_weights_no_wait_ok (uids : List Nat) (weights : List ℚ)
    (prompt confirmAnswer s : Bool) (m : String) (p : List Nat × List Nat)
    (h : (set_weights_extrinsic uids weights false false prompt confirmAnswer
      (Except.ok (s, m))).submitted = some p) :
    (set_weights_extrinsic uids weights false false prompt confirmAnswer
      (Except.ok (s, m))).result = Except.ok true := by
  cases hconv : convert_weights_and_uids_for_emit uids weights with
  | error e =>
    simp [set_weights_extrinsic, hconv] at h
  | ok q =>
    obtain ⟨wu, wv⟩ := q
    cases prompt <;> cases confirmAnswer <;>
      simp [set_weights_extrinsic, hconv] at h ⊢

/-- When neither inclusion nor finalization is awaited and `_do_set_weights`
returns a pair, `set_root_weights_extrinsic` returns `True` whenever the
submission was reached. -/
lemma set_root_no_wait_ok (netuids : List Nat) (rweights : List ℚ) (mA : Nat)
    (limit : ℚ) (prompt confirmAnswer s : Bool) (m : String)
    (p : List Nat × List Nat)
    (h : (set_root_weights_extrinsic netuids rweights mA limit false false
      prompt confirmAnswer (Except.ok (s, m))).submitted = some p) :
    (set_root_weights_extrinsic netuids rweights mA limit false false prompt
      confirmAnswer (Except.ok (s, m))).result = Except.ok true := by
  by_cases hm : (rweights.filter (fun w => 0 < w)).length < mA
  · simp [set_root_weights_extrinsic, hm] at h
  · cases hconv : convert_weights_and_uids_for_emit netuids rweights with
    | error e =>
      cases prompt <;> cases confirmAnswer <;>
        simp [set_root_weights_extrinsic, hm, hconv] at h
    | ok q =>
      obtain ⟨wu, wv⟩ := q
      cases prompt <;> cases confirmAnswer <;>
        simp [set_root_weights_extrinsic, hm, hconv] at h ⊢

/-- C7: in both `set_weights_extrinsic` and `set_root_weights_extrinsic`,
when neither `wait_for_inclusion` nor `wait_for_finalization` was requested
and the submission call returned its initial `(success, message)`
acknowledgement, the call returns `True` for every value of that pair. -/
theorem c7_no_wait_unconfirmed_true (uids : List Nat) (weights : List ℚ)
    (prompt1 confirm1 s1 : Bool) (m1 : String) (p : List Nat × List Nat)
    (netuids : List Nat) (rweights : List ℚ) (mA : Nat) (limit : ℚ)
    (prompt2 confirm2 s2 : Bool) (m2 : String) (q : List Nat × List Nat)
    (h1 : (set_weights_extrinsic uids weights false false prompt1 confirm1
      (Except.ok (s1, m1))).submitted = some p)
    (h2 : (set_root_weights_extrinsic netuids rweights mA limit false false
      prompt2 confirm2 (Except.ok (s2, m2))).submitted = some q) :
    (set_weights_extrinsic uids weights false false prompt1 confirm1
      (Except.ok (s1, m1))).result = Except.ok true ∧
    (set_root_weights_extrinsic netuids rweights mA limit false false prompt2
      confirm2 (Except.ok (s2, m2))).result = Except.ok true :=
  ⟨set_weights_no_wait_ok uids weights prompt1 confirm1 s1 m1 p h1,
   set_root_no_wait_ok netuids rweights mA limit prompt2 confirm2 s2 m2 q h2⟩

/-- Witness for `c7_no_wait_unconfirmed_true`: with no waiting requested,
both calls return `True` even though the chain reported `(False,
"rejected")`. -/
theorem c7_no_wait_unconfirmed_true_witness :
    (set_weights_extrinsic [] [] false false false true
      (Except.ok (false, "rejected"))).result = Except.ok true ∧
    (set_root_weights_extrinsic [] [] 0 1 false false false true
      (Except.ok (false, "rejected"))).result = Except.ok true :=
  c7_no_wait_unconfirmed_true [] [] false true false "rejected" ([], [])
    [] [] 0 1 false true false "rejected" ([], []) (by decide) (by decide)

/-- Once the minimum-weights check has passed, no exception ever escapes
`set_root_weights_extrinsic`: every later failure is converted into a
`False` return by the `try` block. -/
lemma set_root_result_not_error (netuids : List Nat) (rweights : List ℚ)
    (mA : Nat) (limit : ℚ) (wfi wff prompt confirmAnswer : Bool)
    (resp : Except String (Bool × String))
    (hm : ¬ (rweights.filter (fun w => 0 < w)).length < mA) (e : String) :
    (set_root_weights_extrinsic netuids rweights mA limit wfi wff prompt
      confirmAnswer resp).result ≠ Except.error e := by
  cases hconv : convert_weights_and_uids_for_emit netuids rweights with
  | error e2 =>
    cases prompt <;> cases confirmAnswer <;>
      simp [set_root_weights_extrinsic, hm, hconv]
  | ok q =>
    obtain ⟨wu, wv⟩ := q
    cases resp with
    | error e3 =>
      cases prompt <;> cases confirmAnswer <;>
        simp [set_root_weights_extrinsic, hm, hconv]
    | ok sm =>
      obtain ⟨s, msg⟩ := sm
      cases prompt <;> cases confirmAnswer <;> cases s <;> cases wfi <;>
        cases wff <;> simp [set_root_weights_extrinsic, hm, hconv]

/-- C10: the weight-setting flows use two distinct error channels — the
pre-submission insufficient-weights check in `set_root_weights_extrinsic`
raises a `ValueError` that propagates uncaught to the caller, while once
that check has passed no exception escapes, and an exception raised during
the submission phase (inside the `try` block around `_do_set_weights`, in
either flow) is caught and converted into a `False` return. -/
theorem c10_error_channels :
    (∀ (netuids : List Nat) (rweights : List ℚ) (mA : Nat) (limit : ℚ)
        (wfi wff prompt confirmAnswer : Bool)
        (resp : Except String (Bool × String)),
      (rweights.filter (fun w => 0 < w)).length < mA →
        (set_root_weights_extrinsic netuids rweights mA limit wfi wff prompt
          confirmAnswer resp).result =
          Except.error (minWeightsMessage mA
            (rweights.filter (fun w => 0 < w)).length)) ∧
    (∀ (netuids : List Nat) (rweights : List ℚ) (mA : Nat) (limit : ℚ)
        (wfi wff prompt confirmAnswer : Bool)
        (resp : Except String (Bool × String)) (e : String),
      ¬ (rweights.filter (fun w => 0 < w)).length < mA →
        (set_root_weights_extrinsic netuids rweights mA limit wfi wff prompt
          confirmAnswer resp).result ≠ Except.error e) ∧
    (∀ (netuids : List Nat) (rweights : List ℚ) (mA : Nat) (limit : ℚ)
        (wfi wff prompt confirmAnswer : Bool) (e : String),
      ¬ (rweights.filter (fun w => 0 < w)).length < mA →
        (prompt && !confirmAnswer) = false →
        (set_root_weights_extrinsic netuids rweights mA limit wfi wff prompt
          confirmAnswer (Except.error e)).result = Except.ok false) ∧
    (∀ (uids : List Nat) (weights : List ℚ)
        (wfi wff prompt confirmAnswer : Bool) (p : List Nat × List Nat)
        (e : String),
      convert_weights_and_uids_for_emit uids weights = Except.ok p →
        (prompt && !confirmAnswer) = false →
        (set_weights_extrinsic uids weights wfi wff prompt confirmAnswer
          (Except.error e)).result = Except.ok false) := by
  refine ⟨?_, ?_, ?_, ?_⟩
  · intro netuids rweights mA limit wfi wff prompt confirmAnswer resp h
    unfold set_root_weights_extrinsic
    rw [if_pos h]
  · intro netuids rweights mA limit wfi wff prompt confirmAnswer resp e hm
    exact set_root_result_not_error netuids rweights mA limit wfi wff prompt
      confirmAnswer resp hm e
  · intro netuids rweights mA limit wfi wff prompt confirmAnswer e hm hp
    cases hconv : convert_weights_and_uids_for_emit netuids rweights with
    | error e2 => simp [set_root_weights_extrinsic, hm, hconv, hp]
    | ok q =>
      obtain ⟨wu, wv⟩ := q
      simp [set_root_weights_extrinsic, hm, hconv, hp]
  · intro uids weights wfi wff prompt confirmAnswer p e hconv hp
    obtain ⟨wu, wv⟩ := p
    simp [set_weights_extrinsic, hconv, hp]

/-- Witness for `c10_error_channels`: a concrete uncaught `ValueError` from
the minimum-weights check, and concrete caught submission-phase
exceptions yielding `False`. -/
theorem c10_error_channels_witness :
    (set_root_weights_extrinsic [1] [1] 2 1 false false false true
      (Except.ok (true, ""))).result = Except.error (minWeightsMessage 2 1) ∧
    (set_root_weights_extrinsic [1] [1] 0 1 false false false true
      (Except.ok (true, ""))).result ≠ Except.error "transport error" ∧
    (set_root_weights_extrinsic [1] [1] 0 1 false false false true
      (Except.error "boom")).result = Except.ok false ∧
    (set_weights_extrinsic [] [] false false false true
      (Except.error "boom")).result = Except.ok false :=
  ⟨c10_error_channels.1 [1] [1] 2 1 false false false true
      (Except.ok (true, "")) (by decide),
   c10_error_channels.2.1 [1] [1] 0 1 false false false true
      (Except.ok (true, "")) "transport error" (by decide),
   c10_error_channels.2.2.1 [1] [1] 0 1 false false false true "boom"
      (by decide) (by decide),
   c10_error_channels.2.2.2 [] [] false false false true ([], []) "boom"
      (by decide) (by decide)⟩

/-- Over a list of non-negative rationals, dropping the non-positive
entries does not change a running maximum started from a non-negative
accumulator. -/
lemma foldl_max_filter_pos (l : List ℚ) (a : ℚ) (ha : 0 ≤ a)
    (h : ∀ w ∈ l, 0 ≤ w) :
    l.foldl max a = (l.filter (fun w => 0 < w)).foldl max a := by
  induction l generalizing a with
  | nil => rfl
  | cons w t ih =>
    by_cases hw : 0 < w
    · have hf : (w :: t).filter (fun w => 0 < w)
          = w :: t.filter (fun w => 0 < w) := by
        simp [List.filter_cons, hw]
      rw [hf]
      simp only [List.foldl_cons]
      exact ih (max a w) (le_trans ha (le_max_left a w))
        (fun x hx => h x (List.mem_cons_of_mem w hx))
    · have hw0 : w = 0 :=
        le_antisymm (not_lt.mp hw) (h w (List.mem_cons_self w t))
      have hf : (w :: t).filter (fun w => 0 < w)
          = t.filter (fun w => 0 < w) := by
        simp [List.filter_cons, hw]
      rw [hf]
      simp only [List.foldl_cons]
      rw [hw0, max_eq_left ha]
      exact ih a ha (fun x hx => h x (List.mem_cons_of_mem w hx))

/-- C3 fails on the code: with weights `[1, -1]` the filter keeps `[1]` and
the minimum-count check passes, so under the claim the filtered-and-
normalized vector would be submitted; but `set_root_weights_extrinsic`
hands the raw unfiltered vector to the emission conversion, which rejects
the negative entry the filter had discarded, so nothing is submitted at
all and the call returns `False`. -/
theorem c3_filter_before_normalize_counterexample :
    ([(1 : ℚ), -1].filter (fun w => 0 < w)).length = 1 ∧
    (set_root_weights_extrinsic [1, 2] [(1 : ℚ), -1] 1 1 false false false
      true (Except.ok (true, ""))).submitted = none ∧
    (set_root_weights_extrinsic [1, 2] [(1 : ℚ), -1] 1 1 false false false
      true (Except.ok (true, ""))).result = Except.ok false := by decide

/-- C3 (amended): in `set_root_weights_extrinsic` the filtered entries feed
only the minimum-count check.  `normalize_max_weight` is computed on the
unfiltered vector and only displayed, and the vector handed to
`_do_set_weights` is the encoding of the raw `netuids`/`weights`, so
entries discarded by the filter still reach the emission conversion (a
negative one even aborts the submission, as the counterexample shows).
For non-negative vectors the encoding's scale reference — the maximum over
the full vector — coincides with the maximum over the filtered entries. -/
theorem c3_raw_vector_emitted (netuids : List Nat) (weights : List ℚ)
    (mA : Nat) (limit : ℚ) (wfi wff prompt confirmAnswer : Bool)
    (resp : Except String (Bool × String)) (p : List Nat × List Nat)
    (hm : ¬ (weights.filter (fun w => 0 < w)).length < mA)
    (hp : (prompt && !confirmAnswer) = false)
    (hconv : convert_weights_and_uids_for_emit netuids weights
      = Except.ok p) :
    (set_root_weights_extrinsic netuids weights mA limit wfi wff prompt
        confirmAnswer resp).submitted = some p ∧
    (set_root_weights_extrinsic netuids weights mA limit wfi wff prompt
        confirmAnswer resp).formatted =
      some (normalize_max_weight weights limit) ∧
    ((∀ w ∈ weights, 0 ≤ w) →
      weights.foldl max 0
        = (weights.filter (fun w => 0 < w)).foldl max 0) := by
  obtain ⟨wu, wv⟩ := p
  refine ⟨?_, ?_, ?_⟩
  · cases resp with
    | error e => simp [set_root_weights_extrinsic, hm, hp, hconv]
    | ok sm =>
      obtain ⟨s, msg⟩ := sm
      cases s <;> cases wfi <;> cases wff <;>
        simp [set_root_weights_extrinsic, hm, hp, hconv]
  · cases resp with
    | error e => simp [set_root_weights_extrinsic, hm, hp, hconv]
    | ok sm =>
      obtain ⟨s, msg⟩ := sm
      cases s <;> cases wfi <;> cases wff <;>
        simp [set_root_weights_extrinsic, hm, hp, hconv]
  · intro hnn
    exact foldl_max_filter_pos weights 0 le_rfl hnn

/-- Witness for `c3_raw_vector_emitted`: the zero-weight uid 2, discarded
by the filter, is nonetheless submitted with encoded value 0. -/
theorem c3_raw_vector_emitted_witness :
    (set_root_weights_extrinsic [1, 2] [(1 : ℚ), 0] 1 1 false false false
        true (Except.ok (true, ""))).submitted
      = some ([1, 2], [65535, 0]) ∧
    (set_root_weights_extrinsic [1, 2] [(1 : ℚ), 0] 1 1 false false false
        true (Except.ok (true, ""))).formatted =
      some (normalize_max_weight [(1 : ℚ), 0] 1) ∧
    ((∀ w ∈ [(1 : ℚ), 0], 0 ≤ w) →
      [(1 : ℚ), 0].foldl max 0
        = ([(1 : ℚ), 0].filter (fun w => 0 < w)).foldl max 0) :=
  c3_raw_vector_emitted [1, 2] [(1 : ℚ), 0] 1 1 false false false true
    (Except.ok (true, "")) ([1, 2], [65535, 0]) (by decide) (by decide)
    (by norm_num [convert_weights_and_uids_for_emit]; decide)
